import Mathlib

/-!
Verification of OTPGen's andOTP import/export adapter
(`Source/Core/AppSupport/andOTP.cpp`) and of the legacy token model
(`OTPToken_Old`).

Modelling conventions:
* `std::string` buffers handled by the crypto code are byte sequences,
  embedded as `List Nat` (each entry one byte).
* `CryptoPP::SHA256` is the standard FIPS 180-4 SHA-256 digest; it is
  implemented here directly on byte lists, with 32-bit words as `Nat`
  reduced modulo `2 ^ 32`.
* AES-256-GCM is external library code; it is abstracted as a `GCM`
  structure of two `Option`-valued functions (`enc`, `dec`), where `none`
  models any exception thrown by the library (invalid key size,
  authentication-tag mismatch).  The wrapper logic of `andOTP::encrypt`
  and `andOTP::decrypt` is embedded faithfully around that abstraction,
  with the C++ output parameter made explicit: each wrapper receives the
  output string's prior contents and returns the pair
  (boolean result, final contents of the output string).
* The rapidjson document is embedded as an inductive `JValue`; member
  access that would throw in the C++ (missing member, wrong value type)
  is `Option`-valued, `none` corresponding to the exception caught by the
  per-element handler in `andOTP::importTokens`.
* `localtime` is modelled for timezones whose UTC offset is a whole
  number of minutes (every real timezone), so `tm_sec = now % 60` for a
  POSIX timestamp `now`.
-/

/-! ## SHA-256 (FIPS 180-4), byte-level, as computed by CryptoPP::SHA256 -/

namespace Sha256

def w32 (x : Nat) : Nat := x % 4294967296

def rotr (n x : Nat) : Nat := w32 (x / 2 ^ n + x % 2 ^ n * 2 ^ (32 - n))

def shr (n x : Nat) : Nat := x / 2 ^ n

def bsig0 (x : Nat) : Nat := (rotr 2 x) ^^^ (rotr 13 x) ^^^ (rotr 22 x)

def bsig1 (x : Nat) : Nat := (rotr 6 x) ^^^ (rotr 11 x) ^^^ (rotr 25 x)

def ssig0 (x : Nat) : Nat := (rotr 7 x) ^^^ (rotr 18 x) ^^^ (shr 3 x)

def ssig1 (x : Nat) : Nat := (rotr 17 x) ^^^ (rotr 19 x) ^^^ (shr 10 x)

def chf (x y z : Nat) : Nat := (x &&& y) ^^^ ((x ^^^ 4294967295) &&& z)

def maj (x y z : Nat) : Nat := (x &&& y) ^^^ (x &&& z) ^^^ (y &&& z)

def roundK : List Nat :=
  [1116352408, 1899447441, 3049323471, 3921009573,
   961987163, 1508970993, 2453635748, 2870763221,
   3624381080, 310598401, 607225278, 1426881987,
   1925078388, 2162078206, 2614888103, 3248222580,
   3835390401, 4022224774, 264347078, 604807628,
   770255983, 1249150122, 1555081692, 1996064986,
   2554220882, 2821834349, 2952996808, 3210313671,
   3336571891, 3584528711, 113926993, 338241895,
   666307205, 773529912, 1294757372, 1396182291,
   1695183700, 1986661051, 2177026350, 2456956037,
   2730485921, 2820302411, 3259730800, 3345764771,
   3516065817, 3600352804, 4094571909, 275423344,
   430227734, 506948616, 659060556, 883997877,
   958139571, 1322822218, 1537002063, 1747873779,
   1955562222, 2024104815, 2227730452, 2361852424,
   2428436474, 2756734187, 3204031479, 3329325298]

structure Hash8 where
  a : Nat
  b : Nat
  c : Nat
  d : Nat
  e : Nat
  f : Nat
  g : Nat
  h : Nat
deriving DecidableEq, Repr

def initH : Hash8 :=
  ⟨1779033703, 3144134277, 1013904242, 2773480762,
   1359893119, 2600822924, 528734635, 1541459225⟩

def iterN (f : α → α) : Nat → α → α
  | 0, x => x
  | n + 1, x => iterN f n (f x)

def stepW (w : List Nat) : List Nat :=
  let i := w.length
  w ++ [w32 (w.getD (i - 16) 0 + ssig0 (w.getD (i - 15) 0) + w.getD (i - 7) 0 + ssig1 (w.getD (i - 2) 0))]

def msgSchedule (block : List Nat) : List Nat := iterN stepW 48 block

def round (st : Hash8) (ki wi : Nat) : Hash8 :=
  let t1 := w32 (st.h + bsig1 st.e + chf st.e st.f st.g + ki + wi)
  let t2 := w32 (bsig0 st.a + maj st.a st.b st.c)
  ⟨w32 (t1 + t2), st.a, st.b, st.c, w32 (st.d + t1), st.e, st.f, st.g⟩

def compress (st : Hash8) (block : List Nat) : Hash8 :=
  let ws := msgSchedule block
  let fin := (List.zip roundK ws).foldl (fun s kw => round s kw.1 kw.2) st
  ⟨w32 (st.a + fin.a), w32 (st.b + fin.b), w32 (st.c + fin.c), w32 (st.d + fin.d),
   w32 (st.e + fin.e), w32 (st.f + fin.f), w32 (st.g + fin.g), w32 (st.h + fin.h)⟩

def bytesBE : Nat → Nat → List Nat
  | 0, _ => []
  | n + 1, v => bytesBE n (v / 256) ++ [v % 256]

def padMsg (msg : List Nat) : List Nat :=
  msg ++ [128] ++ List.replicate ((119 - msg.length % 64) % 64) 0 ++ bytesBE 8 (8 * msg.length)

def toWords : List Nat → List Nat
  | b0 :: b1 :: b2 :: b3 :: rest =>
      (b0 * 16777216 + b1 * 65536 + b2 * 256 + b3) :: toWords rest
  | _ => []

def chunk16 : List Nat → List (List Nat)
  | [] => []
  | w :: ws => ((w :: ws).take 16) :: chunk16 (ws.drop 15)
termination_by l => l.length
decreasing_by
  simp only [List.length_drop, List.length_cons]
  omega

def wbytes (x : Nat) : List Nat := [x / 16777216 % 256, x / 65536 % 256, x / 256 % 256, x % 256]

def hashBytes (st : Hash8) : List Nat :=
  wbytes st.a ++ wbytes st.b ++ wbytes st.c ++ wbytes st.d ++
  wbytes st.e ++ wbytes st.f ++ wbytes st.g ++ wbytes st.h

def sha256 (msg : List Nat) : List Nat :=
  hashBytes ((chunk16 (toWords (padMsg msg))).foldl compress initH)

end Sha256

/-! ## andOTP crypto wrappers (namespace AppSupport, class andOTP) -/

namespace AppSupport

namespace andOTP

def ANDOTP_IV_SIZE : Nat := 12

def ANDOTP_TAG_SIZE : Nat := 16

/-- `andOTP::sha256_password`: an empty password is returned unchanged;
otherwise the SHA-256 digest of the password bytes is returned. -/
def sha256_password (password : List Nat) : List Nat :=
  if password = [] then password else Sha256.sha256 password

/-- Abstraction of the external AES-256-GCM implementation
(`CryptoPP::GCM<CryptoPP::AES>`).  `enc key iv plaintext` yields
`ciphertext ++ tag` and `dec key iv (ciphertext ++ tag)` yields the
plaintext; `none` models a thrown exception (invalid key size,
authentication failure). -/
structure GCM where
  enc : List Nat → List Nat → List Nat → Option (List Nat)
  dec : List Nat → List Nat → List Nat → Option (List Nat)

/-- `andOTP::decrypt`, with the output parameter explicit: `decrypted0` is
the prior content of the caller's output string, and the returned pair is
(result, final content of the output string).  The `CryptoPP::StringSink`
appends to the output string, and the catch-all handler clears it. -/
def decrypt (g : GCM) (password buffer decrypted0 : List Nat) : Bool × List Nat :=
  if buffer.length ≤ ANDOTP_IV_SIZE + ANDOTP_TAG_SIZE then
    (false, decrypted0)
  else
    let iv := buffer.take ANDOTP_IV_SIZE
    let enc_buf := buffer.drop ANDOTP_IV_SIZE
    let pwd := sha256_password password
    match g.dec pwd iv enc_buf with
    | some plain => (true, decrypted0 ++ plain)
    | none => (false, [])

/-- `andOTP::encrypt`, with the random IV drawn by the PRNG and the output
parameter made explicit.  On success the output is cleared and rebuilt as
`IV ++ ciphertext ++ tag`; the catch-all handler clears it. -/
def encrypt (g : GCM) (iv : List Nat) (password buffer encrypted0 : List Nat) : Bool × List Nat :=
  if buffer = [] then
    (false, encrypted0)
  else
    let pwd := sha256_password password
    match g.enc pwd iv buffer with
    | some enc_buf => (true, iv ++ enc_buf)
    | none => (false, [])

end andOTP

end AppSupport

/-! ## rapidjson document model and the andOTP JSON adapter -/

inductive JValue where
  | jstr (s : String)
  | jnum (n : Nat)
  | jarr (elems : List JValue)
  | jobj (members : List (String × JValue))

def lookupMember : List (String × JValue) → String → Option JValue
  | [], _ => none
  | (k, v) :: rest, name => if k = name then some v else lookupMember rest name

def getMember? (j : JValue) (name : String) : Option JValue :=
  match j with
  | JValue.jobj ms => lookupMember ms name
  | _ => none

/-- Models `elem.HasMember(name)`: rapidjson's `FindMember` asserts
`IsObject()`, and under the throwing-assert build this code is written
for (its per-element handler swallows exactly these exceptions) the call
on a non-object value throws instead of returning.  `none` models that
exception, which is raised before the per-element handler's scope. -/
def hasMember? (j : JValue) (name : String) : Option Bool :=
  match j with
  | JValue.jobj ms => some (lookupMember ms name).isSome
  | _ => none

def asString? : JValue → Option String
  | JValue.jstr s => some s
  | _ => none

def asUint? : JValue → Option Nat
  | JValue.jnum n => some n
  | _ => none

/-- Models `elem[name].GetString()`: `none` when the member is missing or
not a string (the rapidjson assertion, surfaced as an exception). -/
def getString? (j : JValue) (name : String) : Option String :=
  (getMember? j name).bind asString?

/-- Models `elem[name].GetUint()`: `none` when the member is missing or
not an unsigned number. -/
def getUint? (j : JValue) (name : String) : Option Nat :=
  (getMember? j name).bind asUint?

inductive TokenType where
  | TOTP
  | HOTP
  | Steam
deriving DecidableEq, Repr

/-- The token record as seen by the andOTP adapter: the fields the adapter
reads (`secret()`, `label()`, `period()`, `digitLength()`, `counter`,
`algorithmName()`) and writes through the corresponding setters. -/
structure OTPToken where
  type : TokenType
  secret : String := ""
  label : String := ""
  period : Nat := 0
  digits : Nat := 0
  counter : Nat := 0
  algorithmName : String := ""
deriving DecidableEq, Repr

/-- Outcome of the loop body of `andOTP::importTokens` for one array
element: a token is pushed, or the element is skipped (`continue`), or
an exception escapes the per-element handler and aborts the whole
import. -/
inductive ImportResult where
  | token (tok : OTPToken)
  | skip
  | abort
deriving DecidableEq, Repr

/-- The per-element body of the import loop of `andOTP::importTokens`.
The `HasMember` checks run before the per-element `try`, so a non-object
element throws there and aborts the whole import (`abort`); an object
failing the member check, carrying an unrecognized type string, or
raising an exception from a member access inside the `try` is skipped
(`skip`). -/
def importElem (elem : JValue) : ImportResult :=
  match hasMember? elem "type", hasMember? elem "secret", hasMember? elem "label" with
  | some b1, some b2, some b3 =>
    if b1 && b2 && b3 then
      match getString? elem "type" with
      | none => ImportResult.skip
      | some typeStr =>
        if typeStr = "TOTP" then
          match getString? elem "secret", getString? elem "label", getUint? elem "period",
                getUint? elem "digits", getString? elem "algorithm" with
          | some sec, some lab, some per, some dig, some alg =>
            ImportResult.token { type := TokenType.TOTP, secret := sec, label := lab,
                                 period := per, digits := dig, algorithmName := alg }
          | _, _, _, _, _ => ImportResult.skip
        else if typeStr = "HOTP" then
          match getString? elem "secret", getString? elem "label", getUint? elem "counter",
                getUint? elem "digits", getString? elem "algorithm" with
          | some sec, some lab, some cnt, some dig, some alg =>
            ImportResult.token { type := TokenType.HOTP, secret := sec, label := lab,
                                 counter := cnt, digits := dig, algorithmName := alg }
          | _, _, _, _, _ => ImportResult.skip
        else if typeStr = "STEAM" then
          match getString? elem "secret", getString? elem "label" with
          | some sec, some lab =>
            ImportResult.token { type := TokenType.Steam, secret := sec, label := lab }
          | _, _ => ImportResult.skip
        else ImportResult.skip
    else ImportResult.skip
  | _, _, _ => ImportResult.abort

/-- The import loop of `andOTP::importTokens` over a parsed array:
tokens are pushed onto `target` in order; a skipped element contributes
nothing; an aborting element stops the loop and fails the import, with
the tokens already pushed left in `target` (the C++ pushes directly into
the caller's vector before the whole-import handler returns false). -/
def importLoop (target : List OTPToken) : List JValue → Bool × List OTPToken
  | [] => (true, target)
  | elem :: rest =>
    match importElem elem with
    | ImportResult.token tok => importLoop (target ++ [tok]) rest
    | ImportResult.skip => importLoop target rest
    | ImportResult.abort => (false, target)

/-- `andOTP::importTokens` on a parsed document: the root element must be
an array, otherwise the import fails with `target` untouched. -/
def importTokensDoc (target : List OTPToken) (doc : JValue) : Bool × List OTPToken :=
  match doc with
  | JValue.jarr elems => importLoop target elems
  | _ => (false, target)

def typeName : TokenType → String
  | TokenType.HOTP => "HOTP"
  | TokenType.Steam => "STEAM"
  | TokenType.TOTP => "TOTP"

/-- Replace the value of the first member with the given name
(models `value["digits"].SetUint(5)`). -/
def setMember : List (String × JValue) → String → JValue → List (String × JValue)
  | [], _, _ => []
  | (k, v) :: rest, name, nv =>
    if k = name then (k, nv) :: rest else (k, v) :: setMember rest name nv

/-- The JSON object `andOTP::exportTokens` builds for one token, member
order as in the source: secret, label, period, digits, type, algorithm
(with the Steam override of digits and algorithm), thumbnail, last_used,
tags. -/
def exportTokenJson (t : OTPToken) : JValue :=
  let ms := [("secret", JValue.jstr t.secret), ("label", JValue.jstr t.label),
             ("period", JValue.jnum t.period), ("digits", JValue.jnum t.digits),
             ("type", JValue.jstr (typeName t.type))]
  let ms2 := if t.type = TokenType.Steam then
               setMember (ms ++ [("algorithm", JValue.jstr "SHA1")]) "digits" (JValue.jnum 5)
             else
               ms ++ [("algorithm", JValue.jstr t.algorithmName)]
  JValue.jobj (ms2 ++ [("thumbnail", JValue.jstr "Default"), ("last_used", JValue.jnum 0),
                       ("tags", JValue.jarr [])])

/-- The array document `andOTP::exportTokens` serializes. -/
def exportTokensList (tokens : List OTPToken) : List JValue :=
  tokens.map exportTokenJson

/-! ## OTPToken_Old (legacy token model) -/

inductive ShaAlgorithm where
  | SHA1
  | SHA256
  | SHA512
  | Invalid
deriving DecidableEq, Repr

structure OTPToken_Old where
  label : String := ""
  secret : String := ""
  digits : Nat := 0
  period : Nat := 0
  counter : Nat := 0
  algorithm : ShaAlgorithm := ShaAlgorithm.Invalid
deriving DecidableEq, Repr

/-- The string overload of `OTPToken_Old::setAlgorithm`: upper-case the
input with `std::toupper` (C locale: ASCII letters only, which
`Char.toUpper` implements), then compare against the three algorithm
names. -/
def algoFromString (s : String) : ShaAlgorithm :=
  let algo := String.mk (s.data.map Char.toUpper)
  if algo = "SHA1" then ShaAlgorithm.SHA1
  else if algo = "SHA256" then ShaAlgorithm.SHA256
  else if algo = "SHA512" then ShaAlgorithm.SHA512
  else ShaAlgorithm.Invalid

def OTPToken_Old.setAlgorithm (t : OTPToken_Old) (s : String) : OTPToken_Old :=
  { t with algorithm := algoFromString s }

/-- `OTPToken_Old::valid`. -/
def OTPToken_Old.valid (t : OTPToken_Old) : Bool :=
  !(t.label.isEmpty && t.secret.isEmpty)

/-- `OTPToken_Old::remainingTokenValidity` at POSIX time `now`:
`localtime(&now)->tm_sec` is `now % 60` (whole-minute timezone offsets),
and the arithmetic is C++ `int` arithmetic, embedded as `Int`. -/
def OTPToken_Old.remainingTokenValidity (t : OTPToken_Old) (now : Nat) : Nat :=
  if t.period = 0 then 0
  else
    let sec_expired : Int := ((now % 60 : Nat) : Int)
    let token_validity : Int := (t.period : Int) - sec_expired
    if token_validity < 0 then
      ((t.period : Int) - sec_expired % (t.period : Int) + 1).toNat
    else
      (token_validity + 1).toNat

/-! ## Concrete instances used by witnesses -/

/-- A structurally correct toy AEAD scheme: the "tag" is 16 zero bytes.
Used only to exhibit satisfiability of hypotheses; no claim depends on its
cryptographic content. -/
def demoGCM : AppSupport.andOTP.GCM :=
  { enc := fun _ _ m => some (m ++ List.replicate 16 0),
    dec := fun _ _ ct => some (ct.take (ct.length - 16)) }

/-- A scheme whose cipher always throws, exercising the failure paths. -/
def failGCM : AppSupport.andOTP.GCM :=
  { enc := fun _ _ _ => none,
    dec := fun _ _ _ => none }

/-- A well-formed andOTP TOTP entry carrying the full documented schema. -/
def sampleTOTP : JValue :=
  JValue.jobj [("secret", JValue.jstr "JBSWY3DP"), ("label", JValue.jstr "demo"),
               ("period", JValue.jnum 30), ("digits", JValue.jnum 6),
               ("type", JValue.jstr "TOTP"), ("algorithm", JValue.jstr "SHA1"),
               ("thumbnail", JValue.jstr "Default"), ("last_used", JValue.jnum 0),
               ("tags", JValue.jarr [])]

/-- The same entry with the required `secret` member removed. -/
def sampleMissingSecret : JValue :=
  JValue.jobj [("label", JValue.jstr "demo"),
               ("period", JValue.jnum 30), ("digits", JValue.jnum 6),
               ("type", JValue.jstr "TOTP"), ("algorithm", JValue.jstr "SHA1"),
               ("thumbnail", JValue.jstr "Default"), ("last_used", JValue.jnum 0),
               ("tags", JValue.jarr [])]

/-- The token the sample TOTP entry imports to. -/
def sampleTOTPToken : OTPToken :=
  { type := TokenType.TOTP, secret := "JBSWY3DP", label := "demo", period := 30,
    digits := 6, algorithmName := "SHA1" }

/-! ## Supporting lemmas -/

theorem Sha256.hashBytes_length (st : Sha256.Hash8) : (Sha256.hashBytes st).length = 32 := by
  simp [Sha256.hashBytes, Sha256.wbytes]

theorem Sha256.sha256_length (msg : List Nat) : (Sha256.sha256 msg).length = 32 := by
  simp [Sha256.sha256, Sha256.hashBytes_length]

/-! ## Claims -/

/-- Claim C1, counterexample: for the empty password, `sha256_password`
returns the empty string, not the 32-byte SHA-256 digest of the empty
message, so the symmetric key is not the SHA-256 digest for every
password. -/
theorem C1_counterexample : AppSupport.andOTP.sha256_password [] ≠ Sha256.sha256 [] := by
  intro h
  have hl := congrArg List.length h
  rw [Sha256.sha256_length] at hl
  simp [AppSupport.andOTP.sha256_password] at hl

/-- Claim C1, amended: for every non-empty password, `sha256_password`
equals the raw 32-byte SHA-256 digest of the password bytes, and that
digest is the only key at which `andOTP::decrypt` and `andOTP::encrypt`
consult the AES-256-GCM cipher: two cipher implementations that agree at
that key make the wrappers agree everywhere. -/
theorem C1_theorem (password : List Nat) (hp : password ≠ []) :
    AppSupport.andOTP.sha256_password password = Sha256.sha256 password ∧
    (AppSupport.andOTP.sha256_password password).length = 32 ∧
    (∀ g g2 : AppSupport.andOTP.GCM, ∀ buffer d0 : List Nat,
      (∀ iv x, g.dec (Sha256.sha256 password) iv x = g2.dec (Sha256.sha256 password) iv x) →
      AppSupport.andOTP.decrypt g password buffer d0 =
        AppSupport.andOTP.decrypt g2 password buffer d0) ∧
    (∀ g g2 : AppSupport.andOTP.GCM, ∀ iv buffer e0 : List Nat,
      g.enc (Sha256.sha256 password) iv buffer = g2.enc (Sha256.sha256 password) iv buffer →
      AppSupport.andOTP.encrypt g iv password buffer e0 =
        AppSupport.andOTP.encrypt g2 iv password buffer e0) := by
  have hpw : AppSupport.andOTP.sha256_password password = Sha256.sha256 password := by
    simp [AppSupport.andOTP.sha256_password, hp]
  refine ⟨hpw, ?_, ?_, ?_⟩
  · rw [hpw, Sha256.sha256_length]
  · intro g g2 buffer d0 hdec
    by_cases hb : buffer.length ≤ AppSupport.andOTP.ANDOTP_IV_SIZE +
        AppSupport.andOTP.ANDOTP_TAG_SIZE
    · simp [AppSupport.andOTP.decrypt, hb]
    · simp [AppSupport.andOTP.decrypt, hb, hpw, hdec]
  · intro g g2 iv buffer e0 henc
    by_cases hb : buffer = []
    · simp [AppSupport.andOTP.encrypt, hb]
    · simp [AppSupport.andOTP.encrypt, hb, hpw, henc]

theorem C1_witness : (AppSupport.andOTP.sha256_password [97]).length = 32 :=
  (C1_theorem [97] (by decide)).2.1

/-- Claim C2: encryption of an empty plaintext fails with the output
untouched, and decryption of a buffer shorter than 28 bytes fails with
the output untouched and without consulting the cipher (the result is the
same for every cipher implementation). -/
theorem C2_theorem (g g2 : AppSupport.andOTP.GCM) (iv password buffer e0 d0 : List Nat)
    (h : buffer.length < 28) :
    AppSupport.andOTP.encrypt g iv password [] e0 = (false, e0) ∧
    AppSupport.andOTP.decrypt g password buffer d0 = (false, d0) ∧
    AppSupport.andOTP.decrypt g password buffer d0 =
      AppSupport.andOTP.decrypt g2 password buffer d0 := by
  have hb : buffer.length ≤ AppSupport.andOTP.ANDOTP_IV_SIZE +
      AppSupport.andOTP.ANDOTP_TAG_SIZE := by
    simp only [AppSupport.andOTP.ANDOTP_IV_SIZE, AppSupport.andOTP.ANDOTP_TAG_SIZE]
    omega
  refine ⟨by simp [AppSupport.andOTP.encrypt], ?_, ?_⟩
  · simp [AppSupport.andOTP.decrypt, hb]
  · simp [AppSupport.andOTP.decrypt, hb]

theorem C2_witness : AppSupport.andOTP.encrypt demoGCM [0] [1] [] [9] = (false, [9]) :=
  (C2_theorem demoGCM failGCM [0] [1] [1, 2, 3] [9] [8] (by decide)).1

/-- Claim C7, counterexample: the undersized-buffer path of
`andOTP::decrypt` and the empty-plaintext path of `andOTP::encrypt`
return failure with the caller's output buffer left untouched (here
non-empty), so not every failure path leaves the output buffer empty. -/
theorem C7_counterexample :
    (AppSupport.andOTP.decrypt demoGCM [] [] [7]).1 = false ∧
    (AppSupport.andOTP.decrypt demoGCM [] [] [7]).2 = [7] ∧
    (AppSupport.andOTP.encrypt demoGCM [0] [] [] [7]).1 = false ∧
    (AppSupport.andOTP.encrypt demoGCM [0] [] [] [7]).2 = [7] := by
  refine ⟨rfl, rfl, rfl, rfl⟩

/-- Claim C7, amended: on every failure past the initial precheck (empty
plaintext for encrypt, buffer not longer than IV+tag for decrypt) — in
particular on an authentication failure from the cipher — the output
buffer is cleared; the precheck failure paths instead return with the
output buffer untouched. -/
theorem C7_theorem (g : AppSupport.andOTP.GCM) (password db eb iv d0 e0 : List Nat)
    (hdb : 28 < db.length) (heb : eb ≠ []) :
    ((AppSupport.andOTP.decrypt g password db d0).1 = false →
      (AppSupport.andOTP.decrypt g password db d0).2 = []) ∧
    ((AppSupport.andOTP.encrypt g iv password eb e0).1 = false →
      (AppSupport.andOTP.encrypt g iv password eb e0).2 = []) := by
  have hb : ¬(db.length ≤ AppSupport.andOTP.ANDOTP_IV_SIZE +
      AppSupport.andOTP.ANDOTP_TAG_SIZE) := by
    simp only [AppSupport.andOTP.ANDOTP_IV_SIZE, AppSupport.andOTP.ANDOTP_TAG_SIZE]
    omega
  constructor
  · cases hg : g.dec (AppSupport.andOTP.sha256_password password)
        (db.take AppSupport.andOTP.ANDOTP_IV_SIZE) (db.drop AppSupport.andOTP.ANDOTP_IV_SIZE) with
    | none => simp [AppSupport.andOTP.decrypt, hb, hg]
    | some plain => simp [AppSupport.andOTP.decrypt, hb, hg]
  · cases hg : g.enc (AppSupport.andOTP.sha256_password password) iv eb with
    | none => simp [AppSupport.andOTP.encrypt, heb, hg]
    | some enc_buf => simp [AppSupport.andOTP.encrypt, heb, hg]

theorem C7_witness : (AppSupport.andOTP.decrypt failGCM [1] (List.replicate 29 0) [4]).2 = [] :=
  (C7_theorem failGCM [1] (List.replicate 29 0) [5] [0] [4] [6] (by simp) (by decide)).1 (by decide)

/-- Claim C9: whenever the abstracted AES-256-GCM cipher round-trips at
the derived key (encryption succeeds, produces plaintext-plus-16-byte-tag
output, and decryption inverts it), `andOTP::decrypt` recovers exactly
the original plaintext from `andOTP::encrypt`'s output
`IV ++ ciphertext ++ tag`, for any 12-byte IV the encryptor draws, any
non-empty plaintext and any non-empty password. -/
theorem C9_theorem (g : AppSupport.andOTP.GCM) (password plaintext iv c : List Nat)
    (hpw : password ≠ []) (hpt : plaintext ≠ []) (hiv : iv.length = 12)
    (henc : g.enc (AppSupport.andOTP.sha256_password password) iv plaintext = some c)
    (hclen : c.length = plaintext.length + 16)
    (hdec : g.dec (AppSupport.andOTP.sha256_password password) iv c = some plaintext) :
    AppSupport.andOTP.encrypt g iv password plaintext [] = (true, iv ++ c) ∧
    AppSupport.andOTP.decrypt g password (iv ++ c) [] = (true, plaintext) := by
  have hptlen : 0 < plaintext.length := List.length_pos.mpr hpt
  constructor
  · simp [AppSupport.andOTP.encrypt, hpt, henc]
  · have htake : (iv ++ c).take 12 = iv := List.take_left' hiv
    have hdrop : (iv ++ c).drop 12 = c := List.drop_left' hiv
    have harith : ¬((iv ++ c).length ≤ 28) := by
      simp only [List.length_append, hiv, hclen]
      omega
    simp [AppSupport.andOTP.decrypt, AppSupport.andOTP.ANDOTP_IV_SIZE,
      AppSupport.andOTP.ANDOTP_TAG_SIZE, harith, htake, hdrop, hdec]
    omega

theorem C9_witness :
    AppSupport.andOTP.decrypt demoGCM [1] (List.replicate 12 0 ++ ([7] ++ List.replicate 16 0)) []
      = (true, [7]) :=
  (C9_theorem demoGCM [1] [7] (List.replicate 12 0) ([7] ++ List.replicate 16 0)
    (by decide) (by decide) (by simp) (by rfl) (by simp) (by rfl)).2

/-- Claim C4, counterexample: two instants with the same value of
`current_unix_time mod period` (period 30, times 30 and 60, both with
residue 0) yield different results (1 and 31), so the returned value is
not determined by `period - (current_unix_time mod period)`. -/
theorem C4_counterexample :
    (30 : Nat) % 30 = 60 % 30 ∧
    OTPToken_Old.remainingTokenValidity { period := 30 } 30 ≠
      OTPToken_Old.remainingTokenValidity { period := 30 } 60 := by
  decide

/-- Claim C4, amended: for periods in the validated range the result is
computed from the second within the current wall-clock minute
(`tm_sec = now % 60`), not from `now mod period`: it equals
`period - tm_sec + 1` when `tm_sec ≤ period` and
`period - (tm_sec mod period) + 1` otherwise; and it is 0 when the
period is 0. -/
theorem C4_theorem (t : OTPToken_Old) (now : Nat) (h1 : 1 ≤ t.period) (h2 : t.period ≤ 120) :
    OTPToken_Old.remainingTokenValidity t now =
      (if now % 60 ≤ t.period then t.period - now % 60 + 1
       else t.period - (now % 60) % t.period + 1) ∧
    (∀ t2 : OTPToken_Old, t2.period = 0 →
      ∀ m : Nat, OTPToken_Old.remainingTokenValidity t2 m = 0) := by
  constructor
  · have hne : t.period ≠ 0 := by omega
    simp only [OTPToken_Old.remainingTokenValidity, hne, if_false]
    by_cases hcase : (t.period : Int) - ((now % 60 : Nat) : Int) < 0
    · have hgt : ¬(now % 60 ≤ t.period) := by
        intro hle
        have : ((now % 60 : Nat) : Int) ≤ (t.period : Int) := by exact_mod_cast hle
        omega
      rw [if_pos hcase, if_neg hgt, ← Int.natCast_mod]
      have hlt : (now % 60) % t.period < t.period := Nat.mod_lt _ (by omega)
      omega
    · have hle : now % 60 ≤ t.period := by
        have : ((now % 60 : Nat) : Int) ≤ (t.period : Int) := by omega
        exact_mod_cast this
      rw [if_neg hcase, if_pos hle]
      omega
  · intro t2 h m
    simp [OTPToken_Old.remainingTokenValidity, h]

theorem C4_witness :
    OTPToken_Old.remainingTokenValidity { period := 30 } 5 =
      (if 5 % 60 ≤ 30 then 30 - 5 % 60 + 1 else 30 - (5 % 60) % 30 + 1) :=
  (C4_theorem { period := 30 } 5 (by decide) (by decide)).1

/-- Claim C5, counterexample: a token whose algorithm was set to the
sentinel `Invalid` by `setAlgorithm` on a non-matching string still has
`valid() = true`, because `valid()` only inspects label and secret. -/
theorem C5_counterexample :
    (({ label := "otp", secret := "ABC" } : OTPToken_Old).setAlgorithm "bogus").algorithm
        = ShaAlgorithm.Invalid ∧
    (({ label := "otp", secret := "ABC" } : OTPToken_Old).setAlgorithm "bogus").valid = true := by
  decide

/-- Claim C5, amended: `valid()` ignores the algorithm field entirely: it
is false exactly when both label and secret are empty, and replacing the
algorithm (by `Invalid` or anything else) never changes it. -/
theorem C5_theorem (t : OTPToken_Old) :
    (OTPToken_Old.valid t = true ↔ ¬(t.label = "" ∧ t.secret = "")) ∧
    (∀ a : ShaAlgorithm, OTPToken_Old.valid { t with algorithm := a } = OTPToken_Old.valid t) := by
  constructor
  · have hl := String.isEmpty_iff t.label
    have hs := String.isEmpty_iff t.secret
    rw [OTPToken_Old.valid]
    cases hbl : t.label.isEmpty <;> cases hbs : t.secret.isEmpty <;> simp_all
  · intro a
    rfl

/-- A second concrete TOTP token, used to exercise the export-import
round trip. -/
def sampleTOTPToken2 : OTPToken :=
  { type := TokenType.TOTP, secret := "AA", label := "BB", period := 15,
    digits := 7, algorithmName := "SHA256" }

/-- A concrete HOTP token; its export drops the counter. -/
def roundtripHOTPToken : OTPToken :=
  { type := TokenType.HOTP, secret := "S2", label := "L2", counter := 7,
    digits := 8, algorithmName := "SHA256" }

/-- A concrete Steam token with out-of-format stored digits/algorithm. -/
def sampleSteamToken : OTPToken :=
  { type := TokenType.Steam, secret := "S", label := "L", period := 30,
    digits := 10, algorithmName := "SHA512" }

/-- An element is turned into a token only if the three mandatory
members are present (in particular the element is an object). -/
theorem importElem_members {elem : JValue} {tok : OTPToken}
    (h : importElem elem = ImportResult.token tok) :
    hasMember? elem "type" = some true ∧ hasMember? elem "secret" = some true ∧
      hasMember? elem "label" = some true := by
  rw [importElem] at h
  repeat' split at h
  all_goals simp_all

/-- An imported element's type string is exactly one of the three
recognized names, and it determines the variant of the produced token. -/
theorem importElem_typeStr {elem : JValue} {tok : OTPToken}
    (h : importElem elem = ImportResult.token tok) :
    (getString? elem "type" = some "TOTP" ∧ tok.type = TokenType.TOTP) ∨
    (getString? elem "type" = some "HOTP" ∧ tok.type = TokenType.HOTP) ∨
    (getString? elem "type" = some "STEAM" ∧ tok.type = TokenType.Steam) := by
  rw [importElem] at h
  repeat' split at h
  all_goals simp_all
  all_goals (subst h; rfl)

/-- A skipped element (a `continue` of the loop) never changes the
outcome of the import: the loop behaves as if the element were absent. -/
theorem importLoop_skip (pre post : List JValue) (bad : JValue) (target : List OTPToken)
    (hbad : importElem bad = ImportResult.skip) :
    importLoop target (pre ++ bad :: post) = importLoop target (pre ++ post) := by
  induction pre generalizing target with
  | nil => simp [importLoop, hbad]
  | cons e pre ih =>
    simp only [List.cons_append, importLoop]
    cases he : importElem e with
    | token t2 => exact ih (target ++ [t2])
    | skip => exact ih target
    | abort => rfl

/-- The loop body never aborts on an object element, so an all-object
array always imports successfully. -/
theorem importLoop_objects (elems : List JValue) (target : List OTPToken)
    (hobj : ∀ e ∈ elems, ∃ m, e = JValue.jobj m) :
    (importLoop target elems).1 = true := by
  induction elems generalizing target with
  | nil => rfl
  | cons e rest ih =>
    have hne : importElem e ≠ ImportResult.abort := by
      rcases hobj e (by simp) with ⟨m, rfl⟩
      rw [importElem]
      simp only [hasMember?]
      repeat' split
      all_goals simp
    rw [importLoop]
    cases he : importElem e with
    | token t2 => exact ih (target ++ [t2]) (fun x hx => hobj x (List.mem_cons_of_mem _ hx))
    | skip => exact ih target (fun x hx => hobj x (List.mem_cons_of_mem _ hx))
    | abort => exact absurd he hne

/-- Every token the loop returns was either already in `target` or is the
imported form of some element of the array. -/
theorem importLoop_mem {elems : List JValue} {target : List OTPToken} {tok : OTPToken}
    (h : tok ∈ (importLoop target elems).2) :
    tok ∈ target ∨ ∃ e ∈ elems, importElem e = ImportResult.token tok := by
  induction elems generalizing target with
  | nil => exact Or.inl h
  | cons e rest ih =>
    rw [importLoop] at h
    cases he : importElem e with
    | token t2 =>
      rw [he] at h
      rcases ih h with hmem | ⟨x, hx, hxe⟩
      · rcases List.mem_append.mp hmem with h1 | h2
        · exact Or.inl h1
        · have ht : tok = t2 := by simpa using h2
          subst ht
          exact Or.inr ⟨e, List.mem_cons_self _ _, he⟩
      · exact Or.inr ⟨x, List.mem_cons_of_mem _ hx, hxe⟩
    | skip =>
      rw [he] at h
      rcases ih h with h1 | ⟨x, hx, hxe⟩
      · exact Or.inl h1
      · exact Or.inr ⟨x, List.mem_cons_of_mem _ hx, hxe⟩
    | abort =>
      rw [he] at h
      exact Or.inl h

/-- Claim C3, counterexample: a non-object array element is not skipped
individually — its `HasMember` check throws outside the per-element
handler, so the whole import fails, with the tokens of earlier elements
already pushed into the caller's vector.  Here the array
[well-formed TOTP entry, the number 5] fails instead of importing one
token and skipping the other. -/
theorem C3_counterexample :
    (importTokensDoc [] (JValue.jarr [sampleTOTP, JValue.jnum 5])).1 = false ∧
    (importTokensDoc [] (JValue.jarr [sampleTOTP, JValue.jnum 5])).2 = [sampleTOTPToken] := by
  refine ⟨rfl, rfl⟩

/-- Claim C3, amended: an element becomes a token only if it carries the
three mandatory members and a type string exactly in
{"TOTP", "HOTP", "STEAM"}; an OBJECT element failing these checks is
skipped individually, without affecting the rest of the import; an array
whose elements are all objects always imports successfully; but a
non-object element aborts the entire import with failure.  The concrete
array [well-formed TOTP entry, entry missing "secret"] yields exactly
one token. -/
theorem C3_theorem (elems pre post : List JValue) (target : List OTPToken)
    (elem bad : JValue) (tok : OTPToken)
    (hmem : importElem elem = ImportResult.token tok)
    (hbad : importElem bad = ImportResult.skip)
    (hobj : ∀ e ∈ elems, ∃ m, e = JValue.jobj m) :
    (hasMember? elem "type" = some true ∧ hasMember? elem "secret" = some true ∧
      hasMember? elem "label" = some true) ∧
    (getString? elem "type" = some "TOTP" ∨ getString? elem "type" = some "HOTP" ∨
      getString? elem "type" = some "STEAM") ∧
    (importTokensDoc target (JValue.jarr elems)).1 = true ∧
    importLoop target (pre ++ bad :: post) = importLoop target (pre ++ post) ∧
    importTokensDoc [] (JValue.jarr [sampleTOTP, sampleMissingSecret]) =
      (true, [sampleTOTPToken]) := by
  refine ⟨importElem_members hmem, ?_, importLoop_objects elems target hobj,
    importLoop_skip pre post bad target hbad, by rfl⟩
  rcases importElem_typeStr hmem with ⟨h1, _⟩ | ⟨h1, _⟩ | ⟨h1, _⟩
  · exact Or.inl h1
  · exact Or.inr (Or.inl h1)
  · exact Or.inr (Or.inr h1)

theorem C3_witness :
    importTokensDoc [] (JValue.jarr [sampleTOTP, sampleMissingSecret]) =
      (true, [sampleTOTPToken]) :=
  (C3_theorem [] [] [] [] sampleTOTP sampleMissingSecret sampleTOTPToken (by rfl) (by rfl)
    (by simp)).2.2.2.2

/-- Claim C8: every Steam token in the list is exported with member
"digits" equal to 5 and member "algorithm" equal to "SHA1", whatever
digit length and algorithm name the token stores. -/
theorem C8_theorem (tokens : List OTPToken) (t : OTPToken) (hmem : t ∈ tokens)
    (hsteam : t.type = TokenType.Steam) :
    exportTokenJson t ∈ exportTokensList tokens ∧
    getMember? (exportTokenJson t) "digits" = some (JValue.jnum 5) ∧
    getMember? (exportTokenJson t) "algorithm" = some (JValue.jstr "SHA1") := by
  refine ⟨List.mem_map_of_mem _ hmem, ?_, ?_⟩ <;>
    simp [exportTokenJson, hsteam, setMember, getMember?, lookupMember]

theorem C8_witness : getMember? (exportTokenJson sampleSteamToken) "digits" = some (JValue.jnum 5) :=
  (C8_theorem [sampleSteamToken] sampleSteamToken (by simp) (by rfl)).2.1

/-- `andOTP::exportTokens` writes no "counter" member for any token. -/
theorem exportTokenJson_counter (t : OTPToken) :
    getMember? (exportTokenJson t) "counter" = none := by
  cases htype : t.type <;>
    simp [exportTokenJson, htype, setMember, getMember?, lookupMember, typeName]

/-- Importing any exported entry can never produce an HOTP token: the
exported entry of an HOTP token lacks the "counter" member that the
HOTP branch of the importer requires, so it is skipped. -/
theorem importElem_exportTokenJson (t : OTPToken) (tok : OTPToken)
    (h : importElem (exportTokenJson t) = ImportResult.token tok) :
    tok.type ≠ TokenType.HOTP := by
  cases htype : t.type with
  | HOTP =>
    exfalso
    have hskip : importElem (exportTokenJson t) = ImportResult.skip := by
      simp [importElem, exportTokenJson, htype, typeName, hasMember?, getMember?, lookupMember,
        getString?, getUint?, asString?, asUint?, setMember]
    rw [hskip] at h
    exact absurd h (by simp)
  | TOTP =>
    have hstr : getString? (exportTokenJson t) "type" = some "TOTP" := by
      simp [exportTokenJson, htype, typeName, getString?, getMember?, lookupMember, asString?,
        setMember]
    rcases importElem_typeStr h with ⟨h1, h2⟩ | ⟨h1, h2⟩ | ⟨h1, h2⟩ <;> simp_all
  | Steam =>
    have hstr : getString? (exportTokenJson t) "type" = some "STEAM" := by
      simp [exportTokenJson, htype, typeName, getString?, getMember?, lookupMember, asString?,
        setMember]
    rcases importElem_typeStr h with ⟨h1, h2⟩ | ⟨h1, h2⟩ | ⟨h1, h2⟩ <;> simp_all

/-- Claim C10: the exported document carries no "counter" member for any
token, and no token produced by importing an exported document is an
HOTP token — HOTP tokens do not survive the export-then-import round
trip. -/
theorem C10_theorem (t : OTPToken) (tokens : List OTPToken) (tok : OTPToken)
    (h : tok ∈ (importTokensDoc [] (JValue.jarr (exportTokensList tokens))).2) :
    getMember? (exportTokenJson t) "counter" = none ∧ tok.type ≠ TokenType.HOTP := by
  refine ⟨exportTokenJson_counter t, ?_⟩
  have h2 : tok ∈ (importLoop [] (exportTokensList tokens)).2 := h
  rcases importLoop_mem h2 with hmem | ⟨x, hx, hxe⟩
  · exact absurd hmem (List.not_mem_nil tok)
  · rcases List.mem_map.mp (by simpa [exportTokensList] using hx) with ⟨t2, _, rfl⟩
    exact importElem_exportTokenJson t2 tok hxe

theorem C10_witness : sampleTOTPToken2.type ≠ TokenType.HOTP :=
  (C10_theorem roundtripHOTPToken [sampleTOTPToken2, roundtripHOTPToken] sampleTOTPToken2
    (by decide)).2

/-! ## Case-insensitive matching (claim C6) -/

/-- ASCII upper-case folding on code points, the arithmetic of
`Char.toUpper` (and of C-locale `std::toupper`). -/
def upN (n : Nat) : Nat := if n ≥ 97 ∧ n ≤ 122 then n - 32 else n

/-- ASCII lower-case folding on code points. -/
def lowN (n : Nat) : Nat := if n ≥ 65 ∧ n ≤ 90 then n + 32 else n

/-- Specification-side definition of "case-insensitively matches": equal
after ASCII lower-case folding of every character. -/
def asciiCaseInsensitiveEq (s t : String) : Bool :=
  decide (s.data.map Char.toLower = t.data.map Char.toLower)

theorem toNat_ofNat_valid (n : Nat) (h : n < 55296) : (Char.ofNat n).toNat = n := by
  rw [Char.ofNat, dif_pos (Or.inl h)]
  simp [Char.ofNatAux, Char.toNat, UInt32.toNat]

theorem char_toNat_inj {c d : Char} (h : c.toNat = d.toNat) : c = d := by
  have h1 := Char.ofNat_toNat c
  have h2 := Char.ofNat_toNat d
  rw [← h1, ← h2, h]

theorem char_toNat_lt (c : Char) : c.toNat < 1114112 := by
  rcases c.valid with h | ⟨_, h⟩
  · exact Nat.lt_trans h (by decide)
  · exact h

theorem toUpper_toNat (c : Char) : (Char.toUpper c).toNat = upN c.toNat := by
  rw [Char.toUpper, upN]
  by_cases h : c.toNat ≥ 97 ∧ c.toNat ≤ 122
  · rw [if_pos h, if_pos h]
    exact toNat_ofNat_valid _ (by omega)
  · rw [if_neg h, if_neg h]

theorem toLower_toNat (c : Char) : (Char.toLower c).toNat = lowN c.toNat := by
  rw [Char.toLower, lowN]
  by_cases h : c.toNat ≥ 65 ∧ c.toNat ≤ 90
  · rw [if_pos h, if_pos h]
    exact toNat_ofNat_valid _ (by omega)
  · rw [if_neg h, if_neg h]

theorem upN_eq_iff_lowN_eq (m n : Nat) : upN m = upN n ↔ lowN m = lowN n := by
  rw [upN, upN, lowN, lowN]
  split_ifs <;> omega

theorem toUpper_eq_iff_toLower_eq (c d : Char) :
    Char.toUpper c = Char.toUpper d ↔ Char.toLower c = Char.toLower d := by
  constructor
  · intro h
    apply char_toNat_inj
    rw [toLower_toNat, toLower_toNat]
    rw [← upN_eq_iff_lowN_eq, ← toUpper_toNat, ← toUpper_toNat, h]
  · intro h
    apply char_toNat_inj
    rw [toUpper_toNat, toUpper_toNat]
    rw [upN_eq_iff_lowN_eq, ← toLower_toNat, ← toLower_toNat, h]

theorem map_toUpper_eq_iff (l1 l2 : List Char) :
    l1.map Char.toUpper = l2.map Char.toUpper ↔ l1.map Char.toLower = l2.map Char.toLower := by
  induction l1 generalizing l2 with
  | nil => cases l2 <;> simp
  | cons c cs ih =>
    cases l2 with
    | nil => simp
    | cons d ds =>
      simp only [List.map_cons, List.cons.injEq, toUpper_eq_iff_toLower_eq, ih]

theorem algoFromString_eq_SHA1 (s : String) :
    algoFromString s = ShaAlgorithm.SHA1 ↔ String.mk (s.data.map Char.toUpper) = "SHA1" := by
  rw [algoFromString]
  split_ifs <;> simp [*]

theorem algoFromString_eq_SHA256 (s : String) :
    algoFromString s = ShaAlgorithm.SHA256 ↔ String.mk (s.data.map Char.toUpper) = "SHA256" := by
  rw [algoFromString]
  split_ifs <;> simp [*]

theorem algoFromString_eq_SHA512 (s : String) :
    algoFromString s = ShaAlgorithm.SHA512 ↔ String.mk (s.data.map Char.toUpper) = "SHA512" := by
  rw [algoFromString]
  split_ifs <;> simp [*]

theorem algoFromString_eq_Invalid (s : String) :
    algoFromString s = ShaAlgorithm.Invalid ↔
      (¬ String.mk (s.data.map Char.toUpper) = "SHA1" ∧
       ¬ String.mk (s.data.map Char.toUpper) = "SHA256" ∧
       ¬ String.mk (s.data.map Char.toUpper) = "SHA512") := by
  rw [algoFromString]
  split_ifs <;> simp [*]

theorem mk_toUpper_eq_iff (s T : String) (hT : T.data.map Char.toUpper = T.data) :
    String.mk (s.data.map Char.toUpper) = T ↔ asciiCaseInsensitiveEq s T = true := by
  obtain ⟨ld⟩ := T
  have hT2 : ld.map Char.toUpper = ld := hT
  rw [asciiCaseInsensitiveEq, decide_eq_true_eq]
  constructor
  · intro h
    have h2 : s.data.map Char.toUpper = ld := congrArg String.data h
    rw [← hT2] at h2
    exact (map_toUpper_eq_iff s.data ld).mp h2
  · intro h
    have h2 := (map_toUpper_eq_iff s.data ld).mpr h
    rw [hT2] at h2
    exact congrArg String.mk h2

/-- Claim C6: `setAlgorithm(string)` stores SHA1, SHA256 or SHA512
exactly when the input case-insensitively matches "SHA1", "SHA256" or
"SHA512" respectively, and stores the sentinel `Invalid` for every other
string. -/
theorem C6_theorem (t : OTPToken_Old) (s : String) :
    ((t.setAlgorithm s).algorithm = ShaAlgorithm.SHA1 ↔
      asciiCaseInsensitiveEq s "SHA1" = true) ∧
    ((t.setAlgorithm s).algorithm = ShaAlgorithm.SHA256 ↔
      asciiCaseInsensitiveEq s "SHA256" = true) ∧
    ((t.setAlgorithm s).algorithm = ShaAlgorithm.SHA512 ↔
      asciiCaseInsensitiveEq s "SHA512" = true) ∧
    ((t.setAlgorithm s).algorithm = ShaAlgorithm.Invalid ↔
      (asciiCaseInsensitiveEq s "SHA1" = false ∧ asciiCaseInsensitiveEq s "SHA256" = false ∧
       asciiCaseInsensitiveEq s "SHA512" = false)) := by
  have k1 := mk_toUpper_eq_iff s "SHA1" (by decide)
  have k2 := mk_toUpper_eq_iff s "SHA256" (by decide)
  have k3 := mk_toUpper_eq_iff s "SHA512" (by decide)
  have halg : (t.setAlgorithm s).algorithm = algoFromString s := rfl
  rw [halg]
  refine ⟨(algoFromString_eq_SHA1 s).trans k1, (algoFromString_eq_SHA256 s).trans k2,
    (algoFromString_eq_SHA512 s).trans k3, (algoFromString_eq_Invalid s).trans ?_⟩
  constructor
  · rintro ⟨n1, n2, n3⟩
    refine ⟨?_, ?_, ?_⟩
    · cases hb : asciiCaseInsensitiveEq s "SHA1" with
      | false => rfl
      | true => exact absurd (k1.mpr hb) n1
    · cases hb : asciiCaseInsensitiveEq s "SHA256" with
      | false => rfl
      | true => exact absurd (k2.mpr hb) n2
    · cases hb : asciiCaseInsensitiveEq s "SHA512" with
      | false => rfl
      | true => exact absurd (k3.mpr hb) n3
  · rintro ⟨b1, b2, b3⟩
    refine ⟨?_, ?_, ?_⟩
    · intro hu
      rw [k1.mp hu] at b1
      exact absurd b1 (by decide)
    · intro hu
      rw [k2.mp hu] at b2
      exact absurd b2 (by decide)
    · intro hu
      rw [k3.mp hu] at b3
      exact absurd b3 (by decide)
